import Mathlib

/-
Verification of the transaction-simplification and caching pipeline of the
Analytic-Prototype repository (FastAPI backend `backend/main.py` +
Streamlit dashboard `frontend_streamlit/app.py`).

The backend works on untyped JSON decoded into Python values, so we embed
JSON values together with the exact Python operations the code performs on
them: `dict.get` (with and without a default), truthiness (`if symbol:`,
`x or {}`), and `for`-iteration.  Operations that a Python value of the
wrong shape would answer with an exception are embedded in `Except String`,
the error string naming the Python exception class.
-/

/-- JSON values as decoded by `resp.json()`.  Numbers are carried as exact
rationals; the pipeline never computes with them, it only moves them. -/
inductive Json where
  | null
  | bool (b : Bool)
  | num (q : Rat)
  | str (s : String)
  | arr (elems : List Json)
  | obj (fields : List (String × Json))

/-- Python truthiness of a JSON value (`if symbol:`, `ch.get("tokenInfo") or {}`):
`None`, `False`, `0`, `""`, `[]` and `{}` are falsy, everything else truthy. -/
def Json.truthy : Json → Bool
  | .null => false
  | .bool b => b
  | .num q => !(q == 0)
  | .str s => !(s == "")
  | .arr l => !l.isEmpty
  | .obj l => !l.isEmpty

/-- Python `for x in v`: lists yield their elements, strings their characters
(as one-character strings), dicts their keys; every other value answers
`TypeError: not iterable`. -/
def pyIter : Json → Except String (List Json)
  | .arr l => .ok l
  | .str s => .ok (s.data.map (fun c => Json.str (String.mk [c])))
  | .obj fields => .ok (fields.map (fun p => Json.str p.1))
  | _ => .error "TypeError"

/-- Total field lookup on a JSON object, `None` when absent or when the value
is not a dict.  This is Python `v.get(k)` restricted to the cases where it
does not raise. -/
def objGet (v : Json) (k : String) : Json :=
  match v with
  | .obj fields => (fields.lookup k).getD .null
  | _ => .null

/-- Keys of a JSON object, in order. -/
def keysOf (v : Json) : List String :=
  match v with
  | .obj fields => fields.map Prod.fst
  | _ => []

/-
Backend simplification, `backend/main.py` lines 56-76.

    for ch in tx.get("balanceChanges", []):
        token_info = ch.get("tokenInfo") or {}
        symbol = token_info.get("symbol")
        if symbol:
            token_changes.append({"symbol": symbol,
                                  "amount": ch.get("tokenAmount"),
                                  "owner": ch.get("account")})
-/

/-- Processing of one balance-change entry: `none` when the entry is skipped,
`some record` when it contributes a `{symbol, amount, owner}` record, and
`AttributeError` when `.get` is called on a non-dict (a non-dict `ch`, or a
truthy non-dict `tokenInfo`). -/
def mkTokenChange (ch : Json) : Except String (Option Json) :=
  match ch with
  | .obj fields =>
    let tiRaw := (fields.lookup "tokenInfo").getD .null
    let token_info := if tiRaw.truthy then tiRaw else Json.obj []
    match token_info with
    | .obj tif =>
      let symbol := (tif.lookup "symbol").getD .null
      if symbol.truthy then
        .ok (some (Json.obj [("symbol", symbol),
                             ("amount", (fields.lookup "tokenAmount").getD .null),
                             ("owner", (fields.lookup "account").getD .null)]))
      else
        .ok none
    | _ => .error "AttributeError"
  | _ => .error "AttributeError"

/-- The `token_changes` accumulation loop over the balance-change entries. -/
def buildTokenChanges : List Json → Except String (List Json)
  | [] => .ok []
  | ch :: rest =>
    match mkTokenChange ch with
    | .error e => .error e
    | .ok none => buildTokenChanges rest
    | .ok (some record) =>
      match buildTokenChanges rest with
      | .error e => .error e
      | .ok l => .ok (record :: l)

/-- Simplification of one raw transaction into its `SimplifiedTransaction`
dict.  `tx.get("balanceChanges", [])` raises `AttributeError` on a non-dict
`tx`; iterating a non-iterable `balanceChanges` value raises `TypeError`;
absent `signature` / `timestamp` / `type` become `None`. -/
def simplifyTx (tx : Json) : Except String Json :=
  match tx with
  | .obj fields =>
    match pyIter ((fields.lookup "balanceChanges").getD (Json.arr [])) with
    | .error e => .error e
    | .ok chs =>
      match buildTokenChanges chs with
      | .error e => .error e
      | .ok token_changes =>
        .ok (Json.obj [("signature", (fields.lookup "signature").getD .null),
                       ("timestamp", (fields.lookup "timestamp").getD .null),
                       ("type", (fields.lookup "type").getD .null),
                       ("token_changes", Json.arr token_changes)])
  | _ => .error "AttributeError"

/-- The `for tx in txs:` loop body applied in order; the first exception
aborts the request. -/
def mapSimplify : List Json → Except String (List Json)
  | [] => .ok []
  | tx :: rest =>
    match simplifyTx tx with
    | .error e => .error e
    | .ok s =>
      match mapSimplify rest with
      | .error e => .error e
      | .ok l => .ok (s :: l)

/-- Whole-response simplification: iterate the decoded JSON document and
simplify each raw transaction, preserving order. -/
def simplifyAll (txs : Json) : Except String (List Json) :=
  match pyIter txs with
  | .error e => .error e
  | .ok l => mapSimplify l

/-
The proxy endpoint, `backend/main.py` lines 10-18 and 33-76.  The process
environment is a partial map from variable names to strings, and the
upstream (plus the local JSON decoder applied to its body) is a function
from the request URL to an observed behaviour.
-/

/-- What one `requests.get(url, timeout=10)` plus `resp.json()` can observe:
a transport-level failure (`requests.RequestException`, carrying `str(e)`),
or a response with a status code, a raw body text, and the outcome of
decoding that body as JSON (`resp.json()` failure is a
`requests.JSONDecodeError`, a `RequestException`, carrying its message). -/
inductive UpstreamBehavior where
  | transportError (msg : String)
  | response (status : Nat) (text : String) (body : Except String Json)

/-- Outcome of one request to `GET /wallet/{address}/txs_simple`: a JSON-array
reply, an `HTTPException(status_code, detail)`, or an exception that escapes
the handler (Python errors raised outside the `try` block). -/
inductive EndpointResult where
  | ok (body : List Json)
  | httpError (status : Nat) (detail : String)
  | crash (exc : String)

/-- Function `get_helius_key` (lines 10-18): re-read `HELIUS_API_KEY` from the
environment on every call; an unset or empty value raises
`HTTPException(500, ...)`. -/
def get_helius_key (env : String → Option String) : Except (Nat × String) String :=
  match env "HELIUS_API_KEY" with
  | none => .error (500, "HELIUS_API_KEY missing in .env or environment variables")
  | some key =>
    if key = "" then
      .error (500, "HELIUS_API_KEY missing in .env or environment variables")
    else
      .ok key

/-- The upstream request URL built by the f-string at lines 42-45. -/
def heliusUrl (key address : String) (limit : Int) : String :=
  "https://api.helius.xyz/v0/addresses/" ++ address ++ "/transactions?api-key="
    ++ key ++ "&limit=" ++ toString limit

/-- Endpoint handler `get_wallet_txs_simple` (lines 33-76).  Returns the
result together with the list of upstream URLs actually requested.
`resp.raise_for_status()` raises `requests.HTTPError` exactly for status
codes in [400, 600), which the handler converts to
`HTTPException(resp.status_code, resp.text)`; any other `RequestException`
(transport failure, JSON decode failure) becomes `HTTPException(500, str(e))`. -/
def get_wallet_txs_simple (env : String → Option String) (address : String)
    (limit : Int) (upstream : String → UpstreamBehavior) :
    EndpointResult × List String :=
  match get_helius_key env with
  | .error (code, detail) => (.httpError code detail, [])
  | .ok key =>
    let url := heliusUrl key address limit
    match upstream url with
    | .transportError msg => (.httpError 500 msg, [url])
    | .response status text body =>
      if 400 ≤ status ∧ status < 600 then
        (.httpError status text, [url])
      else
        match body with
        | .error msg => (.httpError 500 msg, [url])
        | .ok txs =>
          match simplifyAll txs with
          | .ok slim => (.ok slim, [url])
          | .error e => (.crash e, [url])

/-
Dashboard client, `frontend_streamlit/app.py`.
-/

/-- The backend request URL built by `fetch_txs_simple` (lines 94-96). -/
def fetch_txs_simple_url (base addr : String) (limit : Int) : String :=
  base ++ "/wallet/" ++ addr ++ "/txs_simple?limit=" ++ toString limit

/-- One entry of the `st.cache_data` store: the key (the request URL, the sole
argument of `cached_get`), the time the value was stored, and the value. -/
structure CacheEntry where
  url : String
  storedAt : Nat
  value : Json

/-- Modelled from the spec: `st.cache_data(ttl=15)` serves a stored value
while it is younger than the ttl (the "freshness window"); an expired or
absent entry is a miss.  Streamlit's cache internals are library code, not
part of this repository; the spec describes them as a time-bounded cache
keyed by the request URL with a fixed 15-second window. -/
def cacheLookup (cache : List CacheEntry) (url : String) (now ttl : Nat) : Option Json :=
  match cache.find? (fun e => e.url == url) with
  | some e => if now < e.storedAt + ttl then some e.value else none
  | none => none

/-- Function `cached_get` (lines 88-92) under the ttl-cache model: a hit
returns the stored value with no network call; a miss performs the network
call, stores the result with the current time, and reports one call. -/
def cached_get (fetch : String → Json) (cache : List CacheEntry) (now : Nat)
    (url : String) : Json × List CacheEntry × Nat :=
  match cacheLookup cache url now 15 with
  | some v => (v, cache, 0)
  | none => (fetch url, ⟨url, now, fetch url⟩ :: cache, 1)

/-- One row of the rendered table, keeping the fields `render_table` uses:
the `type` column is `None` exactly when the simplified transaction had no
type (pandas stores it as a missing value, dropped by `.dropna()` and never
matched by `.isin`). -/
structure ViewRow where
  signature : Json
  timestamp : Json
  type : Option String
  token_changes : String

/-- Line 149: `sorted(view["type"].dropna().unique().tolist())` — the distinct
non-null type values, sorted. -/
def typeOptions (rows : List ViewRow) : List String :=
  List.insertionSort (· ≤ ·) (rows.filterMap (fun r => r.type)).dedup

/-- Line 151: `view[view["type"].isin(chosen)]` — pandas `isin` never matches
a missing value, so a row with a null type is kept by no selection. -/
def applyTypeFilter (rows : List ViewRow) (chosen : List String) : List ViewRow :=
  rows.filter (fun r =>
    match r.type with
    | some t => chosen.contains t
    | none => false)

/-
Spec-side definitions (from the words of the claims, for the refinement
statements), and shape predicates used to state them.
-/

/-- Spec-side reading of "the token symbol of a balance-change entry": the
value at `tokenInfo.symbol`, `null` when the entry, its `tokenInfo`, or the
`symbol` key is absent or not an object. -/
def entrySymbol (ch : Json) : Json :=
  match ch with
  | .obj fields =>
    match fields.lookup "tokenInfo" with
    | some (.obj tif) => (tif.lookup "symbol").getD .null
    | _ => .null
  | _ => .null

/-- Spec-side reading of "the entry has a present symbol": the symbol value
exists and is not null. -/
def symbolPresent (ch : Json) : Bool :=
  match entrySymbol ch with
  | .null => false
  | _ => true

/-- Spec-side `{symbol, amount, owner}` record of a balance-change entry. -/
def specRecord (ch : Json) : Json :=
  Json.obj [("symbol", entrySymbol ch),
            ("amount", objGet ch "tokenAmount"),
            ("owner", objGet ch "account")]

/-- The balance-change entries of a raw transaction as the loop sees them:
the iterated `balanceChanges` value, empty when the key is absent (the
`.get` default) and, for totality, on shapes where the loop raises. -/
def changesOf (tx : Json) : List Json :=
  match tx with
  | .obj fields =>
    match fields.lookup "balanceChanges" with
    | none => []
    | some v =>
      match pyIter v with
      | .ok l => l
      | .error _ => []
  | _ => []

/-- The `token_changes` list of a simplified transaction. -/
def tokenChangesOf (s : Json) : List Json :=
  match objGet s "token_changes" with
  | .arr l => l
  | _ => []

/-- A balance-change entry on which the loop body cannot raise: a dict whose
`tokenInfo`, if truthy, is a dict. -/
def wfChange (ch : Json) : Bool :=
  match ch with
  | .obj fields =>
    match (fields.lookup "tokenInfo").getD .null with
    | .obj _ => true
    | v => !v.truthy
  | _ => false

/-- A raw transaction on which the simplification cannot raise: a dict whose
`balanceChanges`, if present, is an array of well-formed entries. -/
def wfTx (tx : Json) : Bool :=
  match tx with
  | .obj fields =>
    match fields.lookup "balanceChanges" with
    | none => true
    | some (.arr chs) => chs.all wfChange
    | some _ => false
  | _ => false

/-- Field lookup on a JSON object, distinguishing an absent key (`none`) from
a null value. -/
def jLookup (v : Json) (k : String) : Option Json :=
  match v with
  | .obj fields => fields.lookup k
  | _ => none

/-
Characterization of the simplification loop.
-/

/-- A balance-change entry that the loop accepts contributes its spec record
exactly when its symbol is truthy. -/
theorem mkTokenChange_ok (ch : Json) (r : Option Json)
    (h : mkTokenChange ch = .ok r) :
    r = if (entrySymbol ch).truthy then some (specRecord ch) else none := by
  cases ch with
  | null => simp [mkTokenChange] at h
  | bool b => simp [mkTokenChange] at h
  | num q => simp [mkTokenChange] at h
  | str s => simp [mkTokenChange] at h
  | arr l => simp [mkTokenChange] at h
  | obj fields =>
    rcases hl : fields.lookup "tokenInfo" with _ | v
    · simp only [mkTokenChange, hl, Option.getD, Json.truthy, Bool.false_eq_true,
        if_false, List.lookup, Except.ok.injEq] at h
      subst h
      simp [entrySymbol, hl, Json.truthy]
    · cases v with
      | null =>
        simp only [mkTokenChange, hl, Option.getD, Json.truthy, Bool.false_eq_true,
          if_false, List.lookup, Except.ok.injEq] at h
        subst h
        simp [entrySymbol, hl, Json.truthy]
      | bool b =>
        cases b with
        | true => simp [mkTokenChange, hl, Json.truthy] at h
        | false =>
          simp only [mkTokenChange, hl, Option.getD, Json.truthy, Bool.false_eq_true,
            if_false, List.lookup, Except.ok.injEq] at h
          subst h
          simp [entrySymbol, hl, Json.truthy]
      | num q =>
        rcases eq_or_ne q 0 with hq | hq
        · subst hq
          simp only [mkTokenChange, hl, Option.getD, Json.truthy, beq_self_eq_true,
            Bool.not_true, Bool.false_eq_true, if_false, List.lookup, Except.ok.injEq] at h
          subst h
          simp [entrySymbol, hl, Json.truthy]
        · simp [mkTokenChange, hl, Json.truthy, hq] at h
      | str s =>
        rcases eq_or_ne s "" with hs | hs
        · subst hs
          simp only [mkTokenChange, hl, Option.getD, Json.truthy, beq_self_eq_true,
            Bool.not_true, Bool.false_eq_true, if_false, List.lookup, Except.ok.injEq] at h
          subst h
          simp [entrySymbol, hl, Json.truthy]
        · simp [mkTokenChange, hl, Json.truthy, hs] at h
      | arr l =>
        cases l with
        | cons a as => simp [mkTokenChange, hl, Json.truthy] at h
        | nil =>
          simp only [mkTokenChange, hl, Option.getD, Json.truthy, List.isEmpty_nil,
            Bool.not_true, Bool.false_eq_true, if_false, List.lookup, Except.ok.injEq] at h
          subst h
          simp [entrySymbol, hl, Json.truthy]
      | obj tif =>
        cases tif with
        | nil =>
          simp only [mkTokenChange, hl, Option.getD, Json.truthy, List.isEmpty_nil,
            Bool.not_true, Bool.false_eq_true, if_false, List.lookup, Except.ok.injEq] at h
          subst h
          simp [entrySymbol, hl, Json.truthy]
        | cons p rest =>
          simp only [mkTokenChange, hl, Option.getD, Json.truthy, List.isEmpty_cons,
            Bool.not_false, if_true] at h
          split at h
          · rename_i hcond
            simp only [Except.ok.injEq] at h
            subst h
            have hc2 : (((p :: rest).lookup "symbol").getD Json.null).truthy = true := hcond
            simp only [entrySymbol, hl, specRecord, objGet]
            rw [if_pos hc2]
            rfl
          · rename_i hcond
            simp only [Except.ok.injEq] at h
            subst h
            have hc2 : ¬ (((p :: rest).lookup "symbol").getD Json.null).truthy = true := hcond
            simp only [entrySymbol, hl]
            rw [if_neg hc2]

/-- The accumulated `token_changes` list is the order-preserving projection of
the entries with a truthy symbol. -/
theorem buildTokenChanges_ok (chs : List Json) (l : List Json)
    (h : buildTokenChanges chs = .ok l) :
    l = (chs.filter (fun ch => (entrySymbol ch).truthy)).map specRecord := by
  induction chs generalizing l with
  | nil =>
    simp [buildTokenChanges] at h
    simp [h]
  | cons ch rest ih =>
    simp only [buildTokenChanges] at h
    cases hm : mkTokenChange ch with
    | error e => rw [hm] at h; cases h
    | ok r =>
      rw [hm] at h
      have hr := mkTokenChange_ok ch r hm
      cases r with
      | none =>
        cases hc : (entrySymbol ch).truthy with
        | true => rw [hc] at hr; simp at hr
        | false =>
          simp only [List.filter_cons, hc, cond_false]
          exact ih l h
      | some record =>
        cases hc : (entrySymbol ch).truthy with
        | false => rw [hc] at hr; simp at hr
        | true =>
          rw [hc] at hr
          simp only [if_pos, Option.some.injEq] at hr
          subst hr
          cases hbuild : buildTokenChanges rest with
          | error e => rw [hbuild] at h; cases h
          | ok l2 =>
            rw [hbuild] at h
            simp only [Except.ok.injEq] at h
            rw [← h, ih l2 hbuild]
            simp [List.filter_cons, hc]

/-- Anatomy of a successful per-transaction simplification. -/
theorem simplifyTx_ok_elim (tx s : Json) (h : simplifyTx tx = .ok s) :
    ∃ fields chs tcs,
      tx = Json.obj fields ∧
      pyIter ((fields.lookup "balanceChanges").getD (Json.arr [])) = .ok chs ∧
      buildTokenChanges chs = .ok tcs ∧
      chs = changesOf tx ∧
      s = Json.obj [("signature", (fields.lookup "signature").getD .null),
                    ("timestamp", (fields.lookup "timestamp").getD .null),
                    ("type", (fields.lookup "type").getD .null),
                    ("token_changes", Json.arr tcs)] := by
  cases tx with
  | null => simp [simplifyTx] at h
  | bool b => simp [simplifyTx] at h
  | num q => simp [simplifyTx] at h
  | str s2 => simp [simplifyTx] at h
  | arr l => simp [simplifyTx] at h
  | obj fields =>
    cases hit : pyIter ((fields.lookup "balanceChanges").getD (Json.arr [])) with
    | error e => simp [simplifyTx, hit] at h
    | ok chs =>
      cases hb : buildTokenChanges chs with
      | error e => simp [simplifyTx, hit, hb] at h
      | ok tcs =>
        have hch : chs = changesOf (Json.obj fields) := by
          rcases hbc : fields.lookup "balanceChanges" with _ | v
          · rw [hbc] at hit
            simp only [Option.getD, pyIter, Except.ok.injEq] at hit
            simp [changesOf, hbc, hit.symm]
          · rw [hbc] at hit
            simp only [Option.getD] at hit
            simp [changesOf, hbc, hit]
        have hs : s = Json.obj [("signature", (fields.lookup "signature").getD .null),
                    ("timestamp", (fields.lookup "timestamp").getD .null),
                    ("type", (fields.lookup "type").getD .null),
                    ("token_changes", Json.arr tcs)] := by
          simp only [simplifyTx, hit, hb, Except.ok.injEq] at h
          exact h.symm
        exact ⟨fields, chs, tcs, rfl, hit, hb, hch, hs⟩

/-- Helper shared by several claims: on every successful simplification, the
`token_changes` of the output are exactly the entries with a truthy symbol,
in upstream order, projected to their `{symbol, amount, owner}` record. -/
theorem tokenChanges_spec (tx s : Json) (h : simplifyTx tx = .ok s) :
    tokenChangesOf s
      = ((changesOf tx).filter (fun ch => (entrySymbol ch).truthy)).map specRecord := by
  obtain ⟨fields, chs, tcs, rfl, hit, hb, hch, rfl⟩ := simplifyTx_ok_elim _ _ h
  have ht : tokenChangesOf (Json.obj
      [("signature", (fields.lookup "signature").getD .null),
       ("timestamp", (fields.lookup "timestamp").getD .null),
       ("type", (fields.lookup "type").getD .null),
       ("token_changes", Json.arr tcs)]) = tcs := rfl
  rw [ht, ← hch]
  exact buildTokenChanges_ok chs tcs hb

/-- The loop over the raw transactions: on success, one output per input,
pointwise in order. -/
theorem mapSimplify_ok (txs slim : List Json) (h : mapSimplify txs = .ok slim) :
    slim.length = txs.length ∧
    ∀ i (hi : i < txs.length) (hj : i < slim.length),
      simplifyTx (txs.get ⟨i, hi⟩) = .ok (slim.get ⟨i, hj⟩) := by
  induction txs generalizing slim with
  | nil =>
    simp only [mapSimplify, Except.ok.injEq] at h
    subst h
    exact ⟨rfl, fun i hi _ => absurd hi (Nat.not_lt_zero i)⟩
  | cons tx rest ih =>
    simp only [mapSimplify] at h
    cases hs : simplifyTx tx with
    | error e => rw [hs] at h; cases h
    | ok s =>
      rw [hs] at h
      cases hm : mapSimplify rest with
      | error e => rw [hm] at h; cases h
      | ok l2 =>
        rw [hm] at h
        simp only [Except.ok.injEq] at h
        subst h
        obtain ⟨hlen, hpt⟩ := ih l2 hm
        refine ⟨by simp [hlen], ?_⟩
        intro i hi hj
        cases i with
        | zero => simpa using hs
        | succ n =>
          exact hpt n (Nat.lt_of_succ_lt_succ hi) (Nat.lt_of_succ_lt_succ hj)

/-- A well-formed balance-change entry never raises. -/
theorem mkTokenChange_wf (ch : Json) (h : wfChange ch = true) :
    ∃ r, mkTokenChange ch = .ok r := by
  cases ch with
  | null => simp [wfChange] at h
  | bool b => simp [wfChange] at h
  | num q => simp [wfChange] at h
  | str s => simp [wfChange] at h
  | arr l => simp [wfChange] at h
  | obj fields =>
    rcases hti : (fields.lookup "tokenInfo").getD .null with _ | b | q | s | l | tif
    · simp only [mkTokenChange, hti, Json.truthy, Bool.false_eq_true, if_false]
      exact ⟨_, rfl⟩
    · have hb : b = false := by simp [wfChange, hti, Json.truthy] at h; exact h
      subst hb
      simp only [mkTokenChange, hti, Json.truthy, Bool.false_eq_true, if_false]
      exact ⟨_, rfl⟩
    · have hq : q = 0 := by simp [wfChange, hti, Json.truthy] at h; exact h
      subst hq
      simp only [mkTokenChange, hti, Json.truthy, beq_self_eq_true, Bool.not_true,
        Bool.false_eq_true, if_false]
      exact ⟨_, rfl⟩
    · have hs : s = "" := by simp [wfChange, hti, Json.truthy] at h; exact h
      subst hs
      simp only [mkTokenChange, hti, Json.truthy, beq_self_eq_true, Bool.not_true,
        Bool.false_eq_true, if_false]
      exact ⟨_, rfl⟩
    · have hl : l = [] := by simp [wfChange, hti, Json.truthy] at h; exact h
      subst hl
      simp only [mkTokenChange, hti, Json.truthy, List.isEmpty_nil, Bool.not_true,
        Bool.false_eq_true, if_false]
      exact ⟨_, rfl⟩
    · by_cases hc : (Json.obj tif).truthy = true
      · simp only [mkTokenChange, hti, hc, if_true]
        split
        · exact ⟨_, rfl⟩
        · exact ⟨_, rfl⟩
      · simp only [mkTokenChange, hti, hc, if_false]
        exact ⟨_, rfl⟩

/-- A list of well-formed balance-change entries never raises. -/
theorem buildTokenChanges_wf (chs : List Json) (h : ∀ ch ∈ chs, wfChange ch = true) :
    ∃ l, buildTokenChanges chs = .ok l := by
  induction chs with
  | nil => exact ⟨[], rfl⟩
  | cons ch rest ih =>
    obtain ⟨r, hr⟩ := mkTokenChange_wf ch (h ch (List.mem_cons_self ch rest))
    obtain ⟨l2, hl2⟩ := ih (fun c hc => h c (List.mem_cons_of_mem ch hc))
    cases r with
    | none => exact ⟨l2, by simp only [buildTokenChanges, hr, hl2]⟩
    | some record => exact ⟨record :: l2, by simp only [buildTokenChanges, hr, hl2]⟩

/-- A well-formed raw transaction never raises, and yields exactly the
four-field simplified dict with `None` defaults for its missing scalars. -/
theorem simplifyTx_wf (tx : Json) (h : wfTx tx = true) :
    ∃ fields tcs, tx = Json.obj fields ∧
      simplifyTx tx = .ok (Json.obj
        [("signature", (fields.lookup "signature").getD .null),
         ("timestamp", (fields.lookup "timestamp").getD .null),
         ("type", (fields.lookup "type").getD .null),
         ("token_changes", Json.arr tcs)]) := by
  cases tx with
  | null => simp [wfTx] at h
  | bool b => simp [wfTx] at h
  | num q => simp [wfTx] at h
  | str s => simp [wfTx] at h
  | arr l => simp [wfTx] at h
  | obj fields =>
    rcases hbc : fields.lookup "balanceChanges" with _ | v
    · exact ⟨fields, [], rfl, by simp only [simplifyTx, hbc, Option.getD, pyIter,
        buildTokenChanges]⟩
    · cases v with
      | arr chs =>
        have hall : ∀ ch ∈ chs, wfChange ch = true := by
          intro ch hch
          have h2 : chs.all wfChange = true := by
            simpa [wfTx, hbc] using h
          exact List.all_eq_true.mp h2 ch hch
        obtain ⟨l, hl⟩ := buildTokenChanges_wf chs hall
        exact ⟨fields, l, rfl, by simp only [simplifyTx, hbc, Option.getD, pyIter, hl]⟩
      | null => simp [wfTx, hbc] at h
      | bool b => simp [wfTx, hbc] at h
      | num q => simp [wfTx, hbc] at h
      | str s => simp [wfTx, hbc] at h
      | obj o => simp [wfTx, hbc] at h

/-
Concrete values used by the claim theorems and their witnesses.
-/

/-- The end-to-end raw transaction of §8 item 5 of the spec. -/
def demoTx : Json :=
  Json.obj
    [("signature", Json.str "S1"), ("timestamp", Json.num 1700000000),
     ("type", Json.str "TRANSFER"),
     ("balanceChanges", Json.arr
       [Json.obj [("tokenInfo", Json.obj [("symbol", Json.str "SOL")]),
                  ("tokenAmount", Json.num (3/2)), ("account", Json.str "A1")],
        Json.obj [("tokenAmount", Json.num 2), ("account", Json.str "A2")]])]

/-- The simplified form the proxy produces for `demoTx`. -/
def demoSimplified : Json :=
  Json.obj
    [("signature", Json.str "S1"), ("timestamp", Json.num 1700000000),
     ("type", Json.str "TRANSFER"),
     ("token_changes", Json.arr
       [Json.obj [("symbol", Json.str "SOL"),
                  ("amount", Json.num (3/2)), ("owner", Json.str "A1")]])]

/-- A balance-change entry whose `tokenInfo.symbol` key is present but holds
the empty string. -/
def emptySymbolChange : Json :=
  Json.obj [("tokenInfo", Json.obj [("symbol", Json.str "")]),
            ("tokenAmount", Json.num 1), ("account", Json.str "A1")]

/-- A raw transaction whose single balance-change entry is `emptySymbolChange`. -/
def emptySymbolTx : Json :=
  Json.obj [("signature", Json.str "S1"),
            ("balanceChanges", Json.arr [emptySymbolChange])]

/-- An environment in which the API credential is set to `"k"`. -/
def envWithKey : String → Option String :=
  fun v => if v = "HELIUS_API_KEY" then some "k" else none

/-- An upstream whose (redirect-final) response has the non-2xx status 300
and a JSON-array body. -/
def upstream300 : String → UpstreamBehavior :=
  fun _ => .response 300 "multiple choices" (.ok (Json.arr []))

/-- An upstream answering 200 with an empty JSON array. -/
def okUpstreamA : String → UpstreamBehavior :=
  fun _ => .response 200 "[]" (.ok (Json.arr []))

/-- A second upstream with the same observable behaviour as `okUpstreamA`. -/
def okUpstreamB : String → UpstreamBehavior :=
  fun _ => .response 200 "[]" (.ok (Json.arr []))

/-- The request URL the endpoint computes, `none` when the credential check
already failed (in which case no request is issued). -/
def requestUrlOf (env : String → Option String) (a : String) (lim : Int) :
    Option String :=
  match get_helius_key env with
  | .ok key => some (heliusUrl key a lim)
  | .error _ => none

/-- A dashboard row whose `type` cell is missing. -/
def nullTypeRow : ViewRow :=
  ⟨Json.str "S", Json.null, none, "1.5 SOL"⟩

/-
Claim C1.
-/

/-- C1, counterexample: the balance-change entry `emptySymbolChange` carries a
present (non-null) symbol — the empty string — and is the sole entry of
`emptySymbolTx`, yet the simplification retains nothing: `if symbol:` tests
truthiness, not presence, and `""` is falsy. -/
theorem C1_present_empty_symbol_dropped :
    symbolPresent emptySymbolChange = true ∧
    changesOf emptySymbolTx = [emptySymbolChange] ∧
    simplifyTx emptySymbolTx
      = .ok (Json.obj [("signature", Json.str "S1"), ("timestamp", Json.null),
                       ("type", Json.null), ("token_changes", Json.arr [])]) ∧
    tokenChangesOf (Json.obj [("signature", Json.str "S1"), ("timestamp", Json.null),
                              ("type", Json.null), ("token_changes", Json.arr [])]) = [] :=
  ⟨rfl, rfl, rfl, rfl⟩

/-- C1, amended: whenever the simplification of a raw transaction succeeds,
its `token_changes` are exactly the balance-change entries whose symbol is
truthy (present, non-null and non-empty), in the original upstream order,
each projected to its `{symbol, amount, owner}` record; entries whose symbol
is absent, null, or falsy are excluded. -/
theorem C1_token_changes_are_truthy_symbol_entries (tx s : Json)
    (h : simplifyTx tx = .ok s) :
    tokenChangesOf s
      = ((changesOf tx).filter (fun ch => (entrySymbol ch).truthy)).map specRecord :=
  tokenChanges_spec tx s h

/-- C1, witness: the amended theorem evaluated on the spec §8 item 5
transaction, whose first entry is retained and second dropped. -/
theorem C1_token_changes_witness :
    tokenChangesOf demoSimplified
      = ((changesOf demoTx).filter (fun ch => (entrySymbol ch).truthy)).map specRecord :=
  C1_token_changes_are_truthy_symbol_entries demoTx demoSimplified rfl

/-
Claim C2.
-/

/-- C2, counterexample: a raw transaction carrying `"balanceChanges": null`
raises `TypeError` (Python iterates `tx.get("balanceChanges", [])`, and the
default protects only an *absent* key, not a null one), contradicting "never
raises" for every raw transaction object. -/
theorem C2_null_balanceChanges_raises :
    simplifyTx (Json.obj [("balanceChanges", Json.null)]) = .error "TypeError" :=
  rfl

/-- C2, amended: for every raw transaction object whose `balanceChanges`, if
present, is an array of objects each of whose `tokenInfo` is an object or
falsy, the simplification never raises, substitutes `None` for the missing
scalars `signature`/`timestamp`/`type`, and produces an empty `token_changes`
when the change list is missing. -/
theorem C2_wf_never_raises_defaults (tx : Json) (h : wfTx tx = true) :
    ∃ s, simplifyTx tx = .ok s ∧
      (jLookup tx "signature" = none → objGet s "signature" = Json.null) ∧
      (jLookup tx "timestamp" = none → objGet s "timestamp" = Json.null) ∧
      (jLookup tx "type" = none → objGet s "type" = Json.null) ∧
      (jLookup tx "balanceChanges" = none → tokenChangesOf s = []) := by
  obtain ⟨fields, tcs, rfl, hok⟩ := simplifyTx_wf tx h
  refine ⟨_, hok, ?_, ?_, ?_, ?_⟩
  · intro hnone
    simp only [jLookup] at hnone
    show (fields.lookup "signature").getD Json.null = Json.null
    rw [hnone]
    rfl
  · intro hnone
    simp only [jLookup] at hnone
    show (fields.lookup "timestamp").getD Json.null = Json.null
    rw [hnone]
    rfl
  · intro hnone
    simp only [jLookup] at hnone
    show (fields.lookup "type").getD Json.null = Json.null
    rw [hnone]
    rfl
  · intro hnone
    simp only [jLookup] at hnone
    rw [tokenChanges_spec _ _ hok]
    simp [changesOf, hnone]

/-- C2, witness: the amended theorem evaluated on the empty raw transaction
object, for which every field falls back to its default. -/
theorem C2_wf_never_raises_witness :
    ∃ s, simplifyTx (Json.obj []) = .ok s ∧
      (jLookup (Json.obj []) "signature" = none → objGet s "signature" = Json.null) ∧
      (jLookup (Json.obj []) "timestamp" = none → objGet s "timestamp" = Json.null) ∧
      (jLookup (Json.obj []) "type" = none → objGet s "type" = Json.null) ∧
      (jLookup (Json.obj []) "balanceChanges" = none → tokenChangesOf s = []) :=
  C2_wf_never_raises_defaults (Json.obj []) rfl

/-
Claim C3.
-/

/-- C3: with no `HELIUS_API_KEY` in the environment, the endpoint answers
HTTP 500 with the message naming the missing credential, and the list of
issued upstream requests is empty. -/
theorem C3_missing_credential_500_no_call (env : String → Option String)
    (a : String) (lim : Int) (u : String → UpstreamBehavior)
    (h : env "HELIUS_API_KEY" = none) :
    get_wallet_txs_simple env a lim u
      = (.httpError 500 "HELIUS_API_KEY missing in .env or environment variables", []) := by
  simp [get_wallet_txs_simple, get_helius_key, h]

/-- C3, witness: the theorem evaluated on the empty environment. -/
theorem C3_missing_credential_witness :
    get_wallet_txs_simple (fun _ => none) "So11111111111111111111111111111111111111112" 3
        (fun _ => .transportError "unreachable")
      = (.httpError 500 "HELIUS_API_KEY missing in .env or environment variables", []) :=
  C3_missing_credential_500_no_call _ _ _ _ rfl

/-
Claim C4.
-/

/-- C4, counterexample: a non-2xx upstream status below 400 is NOT passed
through: on a final status 300 with a decodable array body the proxy answers
200 with the simplified list, because `raise_for_status()` only raises for
status codes in [400, 600). -/
theorem C4_status300_not_passed_through :
    ¬ (200 ≤ 300 ∧ 300 ≤ 299) ∧
    get_wallet_txs_simple envWithKey "addr" 3 upstream300
      = (.ok [], [heliusUrl "k" "addr" 3]) :=
  ⟨by omega, rfl⟩

/-- C4, amended: for every upstream response with a 4xx or 5xx status, the
proxy responds with exactly the upstream status code and exactly the raw
upstream body as the error detail, and issues exactly one upstream request
(no retry); non-2xx statuses outside [400, 600) are not treated as errors. -/
theorem C4_upstream_4xx5xx_passthrough (env : String → Option String)
    (a : String) (lim : Int) (u : String → UpstreamBehavior)
    (key text : String) (status : Nat) (body : Except String Json)
    (hk : env "HELIUS_API_KEY" = some key) (hk2 : key ≠ "")
    (hu : u (heliusUrl key a lim) = .response status text body)
    (h4 : 400 ≤ status) (h6 : status < 600) :
    get_wallet_txs_simple env a lim u
      = (.httpError status text, [heliusUrl key a lim]) := by
  have hkey : get_helius_key env = .ok key := by simp [get_helius_key, hk, hk2]
  simp only [get_wallet_txs_simple, hkey, hu]
  rw [if_pos ⟨h4, h6⟩]

/-- C4, witness: the amended theorem evaluated on the spec §8 item 7
scenario (upstream 404 with body `"not found"`). -/
theorem C4_upstream_404_witness :
    get_wallet_txs_simple envWithKey "addr" 3
        (fun _ => .response 404 "not found" (.error "invalid json"))
      = (.httpError 404 "not found", [heliusUrl "k" "addr" 3]) :=
  C4_upstream_4xx5xx_passthrough envWithKey "addr" 3 _ "k" "not found" 404 _
    rfl (by decide) rfl (by omega) (by omega)

/-
Claim C5.
-/

/-- C5: the endpoint outcome is a deterministic function of the environment,
address, limit and the upstream response at the single computed request URL:
two upstreams that agree there produce identical results (in particular,
re-invoking against an unchanged upstream dataset is idempotent). -/
theorem C5_deterministic_in_upstream (env : String → Option String)
    (a : String) (lim : Int) (u1 u2 : String → UpstreamBehavior)
    (h : ∀ url, requestUrlOf env a lim = some url → u1 url = u2 url) :
    get_wallet_txs_simple env a lim u1 = get_wallet_txs_simple env a lim u2 := by
  cases hkey : get_helius_key env with
  | error e =>
    obtain ⟨code, detail⟩ := e
    simp [get_wallet_txs_simple, hkey]
  | ok key =>
    have hu : u1 (heliusUrl key a lim) = u2 (heliusUrl key a lim) :=
      h _ (by simp [requestUrlOf, hkey])
    simp [get_wallet_txs_simple, hkey, hu]

/-- C5, witness: the theorem evaluated on two distinct upstream functions
with the same observable response. -/
theorem C5_deterministic_witness :
    get_wallet_txs_simple envWithKey "a" 3 okUpstreamA
      = get_wallet_txs_simple envWithKey "a" 3 okUpstreamB :=
  C5_deterministic_in_upstream envWithKey "a" 3 okUpstreamA okUpstreamB
    (fun _ _ => rfl)

/-
Claim C6.
-/

/-- C6: on a successful request, the output has exactly one simplified
transaction per raw transaction, pointwise in upstream order; and for every
successfully simplified transaction, `token_changes` is no longer than the
raw balance-change list and is an order-preserving selection (a sublist) of
the projected raw entries. -/
theorem C6_one_per_tx_and_bounded (txs : Json) (raws slim : List Json)
    (hit : pyIter txs = .ok raws) (h : simplifyAll txs = .ok slim) :
    slim.length = raws.length ∧
    (∀ i (hi : i < raws.length) (hj : i < slim.length),
      simplifyTx (raws.get ⟨i, hi⟩) = .ok (slim.get ⟨i, hj⟩)) ∧
    ∀ tx s, simplifyTx tx = .ok s →
      (tokenChangesOf s).length ≤ (changesOf tx).length ∧
      (tokenChangesOf s).Sublist ((changesOf tx).map specRecord) := by
  have hm : mapSimplify raws = .ok slim := by
    simpa only [simplifyAll, hit] using h
  obtain ⟨hlen, hpt⟩ := mapSimplify_ok raws slim hm
  refine ⟨hlen, hpt, ?_⟩
  intro tx s hs
  rw [tokenChanges_spec tx s hs]
  constructor
  · rw [List.length_map]
    exact List.length_filter_le _ _
  · exact (List.filter_sublist _).map specRecord

/-- C6, witness: the first component of the theorem evaluated on the
one-transaction §8 item 5 upstream array. -/
theorem C6_one_per_tx_witness :
    ([demoSimplified].length = [demoTx].length) :=
  (C6_one_per_tx_and_bounded (Json.arr [demoTx]) [demoTx] [demoSimplified] rfl rfl).1

/-
Claim C7.
-/

/-- C7: starting from a cache with no fresh entry for the URL, the first
fetch issues exactly one network call; a second fetch with the identical URL
strictly inside the 15-second freshness window issues no network call and
returns the first result (so the pair issues at most one call); a second
fetch at or after the window boundary issues a new network call. -/
theorem C7_cache_freshness_window (fetch : String → Json)
    (cache : List CacheEntry) (now1 now2 : Nat) (url : String)
    (hmiss : cacheLookup cache url now1 15 = none) :
    (cached_get fetch cache now1 url).2.2 = 1 ∧
    (now2 < now1 + 15 →
      cached_get fetch (cached_get fetch cache now1 url).2.1 now2 url
        = ((cached_get fetch cache now1 url).1,
           (cached_get fetch cache now1 url).2.1, 0)) ∧
    (now1 + 15 ≤ now2 →
      (cached_get fetch (cached_get fetch cache now1 url).2.1 now2 url).2.2 = 1) := by
  have h1 : cached_get fetch cache now1 url
      = (fetch url, ⟨url, now1, fetch url⟩ :: cache, 1) := by
    simp only [cached_get, hmiss]
  have h2 : cacheLookup (⟨url, now1, fetch url⟩ :: cache) url now2 15
      = if now2 < now1 + 15 then some (fetch url) else none := by
    unfold cacheLookup
    rw [List.find?_cons_of_pos]
    simp
  refine ⟨by rw [h1], ?_, ?_⟩
  · intro hw
    rw [h1]
    simp only [cached_get, h2, if_pos hw]
  · intro hw
    rw [h1]
    simp only [cached_get, h2, if_neg (by omega : ¬ now2 < now1 + 15)]

/-- C7, witness: the theorem evaluated on the empty cache at times 0 and 10. -/
theorem C7_cache_freshness_witness :
    (cached_get (fun _ => Json.null) [] 0 "u").2.2 = 1 ∧
    (10 < 0 + 15 →
      cached_get (fun _ => Json.null) (cached_get (fun _ => Json.null) [] 0 "u").2.1 10 "u"
        = ((cached_get (fun _ => Json.null) [] 0 "u").1,
           (cached_get (fun _ => Json.null) [] 0 "u").2.1, 0)) ∧
    (0 + 15 ≤ 10 →
      (cached_get (fun _ => Json.null)
        (cached_get (fun _ => Json.null) [] 0 "u").2.1 10 "u").2.2 = 1) :=
  C7_cache_freshness_window (fun _ => Json.null) [] 0 10 "u" rfl

/-
Claim C8.
-/

/-- C8: on a transport-level upstream failure the proxy answers HTTP 500
whose detail is the underlying error message, and exactly one upstream
request was attempted (no retry). -/
theorem C8_transport_failure_500 (env : String → Option String)
    (a : String) (lim : Int) (u : String → UpstreamBehavior) (key msg : String)
    (hk : env "HELIUS_API_KEY" = some key) (hk2 : key ≠ "")
    (hu : u (heliusUrl key a lim) = .transportError msg) :
    get_wallet_txs_simple env a lim u
      = (.httpError 500 msg, [heliusUrl key a lim]) := by
  have hkey : get_helius_key env = .ok key := by simp [get_helius_key, hk, hk2]
  simp only [get_wallet_txs_simple, hkey, hu]

/-- C8, witness: the theorem evaluated on an upstream that times out. -/
theorem C8_transport_failure_witness :
    get_wallet_txs_simple envWithKey "addr" 3
        (fun _ => .transportError "HTTPSConnectionPool: Read timed out.")
      = (.httpError 500 "HTTPSConnectionPool: Read timed out.",
         [heliusUrl "k" "addr" 3]) :=
  C8_transport_failure_500 envWithKey "addr" 3 _ "k" _ rfl (by decide) rfl

/-
Claim C9.
-/

/-- C9, counterexample: a fetched row whose `type` is absent does NOT remain
visible under the default selection: `dropna()` removes the null from the
option set and `isin` never matches a missing value, so the single row of
this table is filtered out. -/
theorem C9_null_type_row_hidden :
    applyTypeFilter [nullTypeRow] (typeOptions [nullTypeRow]) = [] ∧
    [nullTypeRow].length = 1 :=
  ⟨rfl, rfl⟩

/-- C9, amended: the filter options are exactly the distinct non-null `type`
values present in the result set; under the default all-options selection
exactly the rows with a non-null type remain visible (rows whose type is
absent are hidden); and any selection is a pure subset operation (a sublist
of the fetched rows, no re-fetch). -/
theorem C9_filter_options_and_default (rows : List ViewRow) :
    (∀ t, t ∈ typeOptions rows ↔ ∃ r ∈ rows, r.type = some t) ∧
    applyTypeFilter rows (typeOptions rows)
      = rows.filter (fun r => r.type.isSome) ∧
    ∀ chosen, (applyTypeFilter rows chosen).Sublist rows := by
  have hmem : ∀ t, t ∈ typeOptions rows ↔ ∃ r ∈ rows, r.type = some t := by
    intro t
    unfold typeOptions
    rw [List.Perm.mem_iff (List.perm_insertionSort _ _), List.mem_dedup,
      List.mem_filterMap]
  refine ⟨hmem, ?_, fun chosen => List.filter_sublist rows⟩
  unfold applyTypeFilter
  apply List.filter_congr
  intro r hr
  cases ht : r.type with
  | none => simp [ht]
  | some t =>
    have hmem2 : t ∈ typeOptions rows := (hmem t).mpr ⟨r, hr, ht⟩
    simp [ht, List.contains, List.elem_eq_mem, hmem2]

/-
Claim C10.
-/

/-- C10: every simplified transaction the proxy produces has exactly the four
keys `signature`, `timestamp`, `type`, `token_changes` in this order, every
element of its `token_changes` has exactly the keys `symbol`, `amount`,
`owner`; and `amount`/`owner` can be null while the symbol is present. -/
theorem C10_output_shape (tx s : Json) (h : simplifyTx tx = .ok s) :
    keysOf s = ["signature", "timestamp", "type", "token_changes"] ∧
    (∀ c ∈ tokenChangesOf s, keysOf c = ["symbol", "amount", "owner"]) ∧
    ∃ tx2 s2, simplifyTx tx2 = .ok s2 ∧
      tokenChangesOf s2 = [Json.obj [("symbol", Json.str "X"),
                                     ("amount", Json.null), ("owner", Json.null)]] := by
  obtain ⟨fields, chs, tcs, rfl, hit, hb, hch, rfl⟩ := simplifyTx_ok_elim _ _ h
  refine ⟨rfl, ?_, ?_⟩
  · intro c hc
    have htc : tcs = (chs.filter (fun ch => (entrySymbol ch).truthy)).map specRecord :=
      buildTokenChanges_ok chs tcs hb
    have hc2 : c ∈ tcs := hc
    rw [htc] at hc2
    obtain ⟨ch, _, rfl⟩ := List.mem_map.mp hc2
    rfl
  · exact ⟨Json.obj [("balanceChanges", Json.arr
      [Json.obj [("tokenInfo", Json.obj [("symbol", Json.str "X")])]])], _, rfl, rfl⟩

/-- C10, witness: the first component of the theorem evaluated on the empty
raw transaction object. -/
theorem C10_output_shape_witness :
    keysOf (Json.obj [("signature", Json.null), ("timestamp", Json.null),
                      ("type", Json.null), ("token_changes", Json.arr [])])
      = ["signature", "timestamp", "type", "token_changes"] :=
  (C10_output_shape (Json.obj [])
    (Json.obj [("signature", Json.null), ("timestamp", Json.null),
               ("type", Json.null), ("token_changes", Json.arr [])]) rfl).1

-- Sanity checks: the embedding reproduces the end-to-end scenario of §8
-- item 5 of the spec, and the defaulting on the empty object.
example :
    simplifyTx (Json.obj
      [("signature", Json.str "S1"), ("timestamp", Json.num 1700000000),
       ("type", Json.str "TRANSFER"),
       ("balanceChanges", Json.arr
         [Json.obj [("tokenInfo", Json.obj [("symbol", Json.str "SOL")]),
                    ("tokenAmount", Json.num (3/2)), ("account", Json.str "A1")],
          Json.obj [("tokenAmount", Json.num 2), ("account", Json.str "A2")]])])
    = Except.ok (Json.obj
      [("signature", Json.str "S1"), ("timestamp", Json.num 1700000000),
       ("type", Json.str "TRANSFER"),
       ("token_changes", Json.arr
         [Json.obj [("symbol", Json.str "SOL"),
                    ("amount", Json.num (3/2)), ("owner", Json.str "A1")]])]) := by
  rfl

example : simplifyTx (Json.obj []) =
    .ok (Json.obj [("signature", Json.null), ("timestamp", Json.null),
                   ("type", Json.null), ("token_changes", Json.arr [])]) := rfl
